import Mathlib

/-!
Verification of the Travel_bot repository core against its specification.

The Python sources under `src/` are shallowly embedded below:
pure functions become Lean functions, the module-level mutable state of
`db.py` becomes explicit state passing, HTTP calls of
`services/google_places.py` become functions of an explicit list of
attempt outcomes, and Python floats are modelled by exact rationals.
-/

namespace TravelBot

/-! ## Python string helpers

`str.strip()` removes leading and trailing whitespace.  We model the
ASCII whitespace characters Python strips. -/

def isPySpace (c : Char) : Bool :=
  c = ' ' || c = '\t' || c = '\n' || c = '\r' || c = Char.ofNat 11 || c = Char.ofNat 12

def pyStrip (s : String) : String :=
  String.mk (((s.toList.dropWhile isPySpace).reverse.dropWhile isPySpace).reverse)

/-! ## Persistence layer (`src/db.py`)

The in-memory fallback store `_mem_users_by_tg` / `_mem_next_id` is a
state record; the module-global `_IN_MEMORY_MODE` flag together with the
store forms `DbState`.  Driver availability and the configured URL are
the immutable environment; whether a backend attempt succeeds is an
oracle boolean passed to each operation. -/

/-- Row of the `users` map: `id`, `tg_id` and the four optional fields,
as created and mutated by `_memory_upsert` in `src/db.py`. -/
structure MemRow where
  id : Nat
  tg_id : Int
  language : Option String
  first_name : Option String
  last_name : Option String
  phone : Option String
  deriving DecidableEq, Repr

/-- State of the in-memory store: `_mem_users_by_tg` (as a map from
telegram id to row) and `_mem_next_id`. -/
structure MemStore where
  users : Int → Option MemRow
  next_id : Nat

/-- Initial in-memory store: empty dict, `_mem_next_id = 1`. -/
def memEmpty : MemStore :=
  ⟨fun _ => none, 1⟩

/-- Optional-field arguments of one upsert call
(`language`, `first_name`, `last_name`, `phone`). -/
structure Args where
  language : Option String
  first_name : Option String
  last_name : Option String
  phone : Option String
  deriving DecidableEq, Repr

/-- Field updates of `_memory_upsert`: each field supplied as non-`None`
overwrites the row's field (`if language is not None: row["language"] = language`,
and likewise for the other three). -/
def applyArgs (r : MemRow) (a : Args) : MemRow :=
  ⟨r.id, r.tg_id,
   Option.or a.language r.language,
   Option.or a.first_name r.first_name,
   Option.or a.last_name r.last_name,
   Option.or a.phone r.phone⟩

/-- Embedding of `_memory_upsert` (src/db.py lines 62-77): a missing row
is created with `id = _mem_next_id`, all optional fields `None`, and
`_mem_next_id` is incremented; then the supplied non-null fields are
written into the (new or existing) row. -/
def memory_upsert (st : MemStore) (tg : Int) (a : Args) : MemStore :=
  match st.users tg with
  | none =>
      ⟨fun i => if i = tg then some (applyArgs ⟨st.next_id, tg, none, none, none, none⟩ a)
                else st.users i,
       st.next_id + 1⟩
  | some r =>
      ⟨fun i => if i = tg then some (applyArgs r a) else st.users i,
       st.next_id⟩

/-- Result tuple of `get_user` / `_memory_get`:
`(id, tg_id, language, first_name, last_name, phone)`. -/
abbrev GetRow : Type :=
  Nat × Int × Option String × Option String × Option String × Option String

/-- Embedding of `_memory_get` (src/db.py lines 79-83). -/
def memory_get (st : MemStore) (tg : Int) : Option GetRow :=
  (st.users tg).map fun r => (r.id, r.tg_id, r.language, r.first_name, r.last_name, r.phone)

/-- Immutable environment of the db module: whether a PostgreSQL driver
imported (`_DB_DRIVER is not None`) and whether `DB_URL` is set. -/
structure DbEnv where
  driver : Bool
  dbUrl : Bool
  deriving DecidableEq, Repr

/-- Mutable module state: the `_IN_MEMORY_MODE` flag and the in-memory
store. -/
structure DbState where
  inMemoryMode : Bool
  mem : MemStore

/-- Embedding of `_enable_memory_mode` (src/db.py lines 85-89): sets the
flag; the log line is an effect we do not model. -/
def enable_memory_mode (st : DbState) : DbState :=
  ⟨true, st.mem⟩

/-- Embedding of `init_db` (src/db.py lines 91-130).  The second
component records whether the backend was attempted (a `connect` call
was issued).  `backendOk` is the oracle for the outcome of that attempt;
on failure the exception is caught and the mode flipped. -/
def init_db (env : DbEnv) (backendOk : Bool) (st : DbState) : DbState × Bool :=
  if ¬env.driver then (enable_memory_mode st, false)
  else if ¬env.dbUrl then (enable_memory_mode st, false)
  else if backendOk then (st, true)
  else (enable_memory_mode st, true)

/-- Embedding of `upsert_user` (src/db.py lines 132-175).  In memory
mode (or without driver/URL) the call goes straight to the memory store
and the mode is (re)enabled; otherwise the backend is attempted, and on
failure the mode flips and the same upsert is replayed on the memory
store.  The boolean records whether the backend was attempted. -/
def upsert_user (env : DbEnv) (backendOk : Bool) (st : DbState) (tg : Int) (a : Args) :
    DbState × Bool :=
  if st.inMemoryMode ∨ ¬env.driver ∨ ¬env.dbUrl then
    (⟨true, memory_upsert st.mem tg a⟩, false)
  else if backendOk then (st, true)
  else (⟨true, memory_upsert st.mem tg a⟩, true)

/-- Embedding of `get_user` (src/db.py lines 177-202).  `backendRow` is
the oracle row a successful backend read would return.  The middle
component is the updated state, the last whether the backend was
attempted. -/
def get_user (env : DbEnv) (backendOk : Bool) (backendRow : Option GetRow)
    (st : DbState) (tg : Int) : Option GetRow × DbState × Bool :=
  if st.inMemoryMode ∨ ¬env.driver ∨ ¬env.dbUrl then
    (memory_get st.mem tg, ⟨true, st.mem⟩, false)
  else if backendOk then (backendRow, st, true)
  else (memory_get st.mem tg, ⟨true, st.mem⟩, true)

/-! ## Sequences of upserts (claim C1) -/

/-- Folding a sequence of `_memory_upsert` calls on one identity. -/
def runUpserts (st : MemStore) (tg : Int) (calls : List Args) : MemStore :=
  calls.foldl (fun s a => memory_upsert s tg a) st

/-- Last non-null value of a sequence of optional values (later calls
override earlier ones; `none` entries are skipped). -/
def lastSome : List (Option String) → Option String
  | [] => none
  | o :: rest => Option.or (lastSome rest) o

theorem option_or_assoc (a b c : Option String) :
    Option.or (Option.or a b) c = Option.or a (Option.or b c) := by
  cases a <;> cases b <;> rfl

theorem memory_upsert_users_existing (st : MemStore) (tg : Int) (a : Args) (r : MemRow)
    (h : st.users tg = some r) :
    (memory_upsert st tg a).users tg = some (applyArgs r a) := by
  unfold memory_upsert
  rw [h]
  simp

theorem runUpserts_existing (tg : Int) (calls : List Args) :
    ∀ (st : MemStore) (r : MemRow), st.users tg = some r →
    (runUpserts st tg calls).users tg =
      some ⟨r.id, r.tg_id,
            Option.or (lastSome (calls.map Args.language)) r.language,
            Option.or (lastSome (calls.map Args.first_name)) r.first_name,
            Option.or (lastSome (calls.map Args.last_name)) r.last_name,
            Option.or (lastSome (calls.map Args.phone)) r.phone⟩ := by
  induction calls with
  | nil =>
      intro st r h
      simp [runUpserts, lastSome, Option.or, h]
  | cons c cs ih =>
      intro st r h
      have hstep : (memory_upsert st tg c).users tg = some (applyArgs r c) :=
        memory_upsert_users_existing st tg c r h
      have := ih (memory_upsert st tg c) (applyArgs r c) hstep
      simp only [runUpserts, List.foldl_cons] at this ⊢
      rw [this]
      simp only [applyArgs, List.map_cons, lastSome]
      rw [option_or_assoc, option_or_assoc, option_or_assoc, option_or_assoc]

theorem option_or_none (a : Option String) : Option.or a none = a := by
  cases a <;> rfl

theorem isSome_or_right (a b : Option String) (h : b.isSome) : (Option.or a b).isSome := by
  cases a <;> simp [Option.or, h]

/-- C1: for every identity and every finite sequence of upsert calls on
that identity (starting with no stored record for it), the stored record
afterwards holds in each field the last non-null value supplied for that
field across the sequence, or null if none was ever supplied; an upsert
never sets an already-populated field back to null; and a first upsert
with all-null optional fields creates a record with only the identity
populated. -/
theorem C1_upsert_merge_last_non_null
    (st₀ : MemStore) (tg : Int) (calls : List Args)
    (habs : st₀.users tg = none) :
    (calls ≠ [] →
      (runUpserts st₀ tg calls).users tg =
        some ⟨st₀.next_id, tg,
              lastSome (calls.map Args.language),
              lastSome (calls.map Args.first_name),
              lastSome (calls.map Args.last_name),
              lastSome (calls.map Args.phone)⟩)
    ∧ (∀ (st : MemStore) (a : Args) (r : MemRow), st.users tg = some r →
        ∃ r', (memory_upsert st tg a).users tg = some r' ∧
          (r.language.isSome → r'.language.isSome) ∧
          (r.first_name.isSome → r'.first_name.isSome) ∧
          (r.last_name.isSome → r'.last_name.isSome) ∧
          (r.phone.isSome → r'.phone.isSome))
    ∧ ((memory_upsert st₀ tg ⟨none, none, none, none⟩).users tg =
        some ⟨st₀.next_id, tg, none, none, none, none⟩) := by
  refine ⟨?_, ?_, ?_⟩
  · intro hne
    match calls, hne with
    | c :: cs, _ =>
      have hstep : (memory_upsert st₀ tg c).users tg =
          some (applyArgs ⟨st₀.next_id, tg, none, none, none, none⟩ c) := by
        unfold memory_upsert
        rw [habs]
        simp
      have := runUpserts_existing tg cs (memory_upsert st₀ tg c)
        (applyArgs ⟨st₀.next_id, tg, none, none, none, none⟩ c) hstep
      simp only [runUpserts, List.foldl_cons] at this ⊢
      rw [this]
      simp only [applyArgs, List.map_cons, lastSome]
      rw [option_or_none, option_or_none, option_or_none, option_or_none]
  · intro st a r h
    refine ⟨applyArgs r a, memory_upsert_users_existing st tg a r h, ?_, ?_, ?_, ?_⟩ <;>
      exact fun hs => isSome_or_right _ _ hs
  · unfold memory_upsert
    rw [habs]
    simp [applyArgs, Option.or]

/-- Witness for C1 at a concrete two-call sequence on a fresh store. -/
theorem C1_upsert_merge_last_non_null_witness :
    (runUpserts memEmpty 7
        [⟨some "en", none, none, none⟩, ⟨none, some "Ann", none, none⟩]).users 7 =
      some ⟨1, 7, some "en", some "Ann", none, none⟩ :=
  (C1_upsert_merge_last_non_null memEmpty 7
      [⟨some "en", none, none, none⟩, ⟨none, some "Ann", none, none⟩] rfl).1 (by decide)

/-! ## Persistence Mode (claims C2, C3) -/

/-- C2 counterexample: with a driver and URL configured and the process
already in Memory-fallback mode, a subsequent `init_db` call still
attempts the backend (`psycopg.connect` is issued: the attempted flag is
`true`), because `init_db` never consults `_IN_MEMORY_MODE`.  This
refutes "every subsequent persistence operation in the process executes
directly against the in-process store without attempting the backend". -/
theorem C2_init_attempts_backend_in_memory_mode :
    (⟨true, memEmpty⟩ : DbState).inMemoryMode = true
    ∧ (init_db ⟨true, true⟩ true ⟨true, memEmpty⟩).2 = true := by
  exact ⟨rfl, rfl⟩

/-- C2 (amended): the Memory-fallback mode is monotone — no operation
ever resets it to Primary-backed — and once in Memory-fallback, `upsert`
and `get` execute directly against the in-process store without
attempting the backend; `init`, however, re-attempts the backend schema
bootstrap whenever a driver and URL are configured (though it still
leaves the mode in Memory-fallback). -/
theorem C2_memory_mode_monotone
    (env : DbEnv) (ok : Bool) (br : Option GetRow) (st : DbState) (tg : Int) (a : Args)
    (h : st.inMemoryMode = true) :
    ((init_db env ok st).1.inMemoryMode = true)
    ∧ ((upsert_user env ok st tg a).2 = false
        ∧ (upsert_user env ok st tg a).1 = ⟨true, memory_upsert st.mem tg a⟩)
    ∧ ((get_user env ok br st tg).1 = memory_get st.mem tg
        ∧ (get_user env ok br st tg).2.1 = ⟨true, st.mem⟩
        ∧ (get_user env ok br st tg).2.2 = false)
    ∧ ((init_db env ok st).2 = (env.driver && env.dbUrl)) := by
  refine ⟨?_, ⟨?_, ?_⟩, ⟨?_, ?_, ?_⟩, ?_⟩ <;>
    simp only [init_db, upsert_user, get_user, enable_memory_mode, h] <;>
    cases hd : env.driver <;> cases hu : env.dbUrl <;> cases ok <;> simp [h]

/-- Witness for C2 (amended) in Memory-fallback mode with a healthy
backend configured. -/
theorem C2_memory_mode_monotone_witness :
    ((init_db ⟨true, true⟩ true ⟨true, memEmpty⟩).1.inMemoryMode = true)
    ∧ ((upsert_user ⟨true, true⟩ true ⟨true, memEmpty⟩ 3 ⟨none, none, none, some "+9"⟩).2 = false
        ∧ (upsert_user ⟨true, true⟩ true ⟨true, memEmpty⟩ 3 ⟨none, none, none, some "+9"⟩).1 =
            ⟨true, memory_upsert memEmpty 3 ⟨none, none, none, some "+9"⟩⟩)
    ∧ ((get_user ⟨true, true⟩ true none ⟨true, memEmpty⟩ 3).1 = memory_get memEmpty 3
        ∧ (get_user ⟨true, true⟩ true none ⟨true, memEmpty⟩ 3).2.1 = ⟨true, memEmpty⟩
        ∧ (get_user ⟨true, true⟩ true none ⟨true, memEmpty⟩ 3).2.2 = false)
    ∧ ((init_db ⟨true, true⟩ true ⟨true, memEmpty⟩).2 = ((true : Bool) && true)) :=
  C2_memory_mode_monotone ⟨true, true⟩ true none ⟨true, memEmpty⟩ 3 ⟨none, none, none, some "+9"⟩ rfl

/-- C3: if the backend attempt fails (oracle `false`) during an `upsert`
or `get` issued in Primary-backed mode with driver and URL present, the
exception is caught, the mode flips to Memory-fallback, and the same
logical operation is replayed on the in-process store: the upsert's
merge is applied to the memory store and the get returns the memory
store's record (or nothing).  Both embedded operations are total
functions, so the caller observes a normal return, never a failure. -/
theorem C3_backend_failure_retried_on_memory
    (env : DbEnv) (br : Option GetRow) (st : DbState) (tg : Int) (a : Args)
    (hmode : st.inMemoryMode = false) (hdriver : env.driver = true) (hurl : env.dbUrl = true) :
    (upsert_user env false st tg a = (⟨true, memory_upsert st.mem tg a⟩, true))
    ∧ (get_user env false br st tg = (memory_get st.mem tg, ⟨true, st.mem⟩, true)) := by
  constructor <;> simp [upsert_user, get_user, hmode, hdriver, hurl]

/-- Witness for C3 at a concrete failing upsert and get. -/
theorem C3_backend_failure_retried_on_memory_witness :
    (upsert_user ⟨true, true⟩ false ⟨false, memEmpty⟩ 1 ⟨some "uz", none, none, none⟩ =
        (⟨true, memory_upsert memEmpty 1 ⟨some "uz", none, none, none⟩⟩, true))
    ∧ (get_user ⟨true, true⟩ false none ⟨false, memEmpty⟩ 1 =
        (memory_get memEmpty 1, ⟨true, memEmpty⟩, true)) :=
  C3_backend_failure_retried_on_memory ⟨true, true⟩ none ⟨false, memEmpty⟩ 1
    ⟨some "uz", none, none, none⟩ rfl rfl rfl

/-! ## Editing the phone number (claim C7)

`on_edit_phone` (src/bot/handlers.py lines 397-405) reads the message
text, strips surrounding whitespace, and calls
`upsert_user(tg_id, phone=stripped)`. -/

/-- Persistence effect of `on_edit_phone`: the resulting db state after
`upsert_user(update.effective_user.id, phone=(text or "").strip())`. -/
def on_edit_phone_upsert (env : DbEnv) (ok : Bool) (st : DbState) (tg : Int)
    (text : String) : DbState :=
  (upsert_user env ok st tg ⟨none, none, none, some (pyStrip text)⟩).1

/-- Store holding one fully populated profile, used as the concrete
starting point of the C7 counterexample. -/
def profileStore : DbState :=
  ⟨true, memory_upsert memEmpty 5 ⟨some "en", some "Ann", some "Lee", some "+1"⟩⟩

/-- C7 counterexample: processing an EditPhone text event whose text is
`" 99"` (with a leading space) stores the stripped string `"99"`, not
the supplied text, so the stored record after the event differs from the
record the claim predicts. -/
theorem C7_edit_phone_strips_text :
    memory_get (on_edit_phone_upsert ⟨true, true⟩ true profileStore 5 " 99").mem 5 =
      some (1, 5, some "en", some "Ann", some "Lee", some "99")
    ∧ ("99" : String) ≠ " 99" := by
  constructor
  · rfl
  · decide

/-- C7 (amended): starting from any stored profile (in Memory-fallback
mode), processing an EditPhone text event persists the supplied text
with surrounding whitespace stripped as the phone field, and leaves the
language, first name, and last name fields unchanged, as observed by a
subsequent get on the same identity. -/
theorem C7_edit_phone_updates_only_phone
    (env : DbEnv) (ok ok' : Bool) (br : Option GetRow) (st : DbState) (tg : Int) (text : String)
    (i : Nat) (t : Int) (l f ln p : Option String)
    (hmode : st.inMemoryMode = true)
    (hrow : memory_get st.mem tg = some (i, t, l, f, ln, p)) :
    (get_user env ok' br (on_edit_phone_upsert env ok st tg text) tg).1 =
      some (i, t, l, f, ln, some (pyStrip text)) := by
  rcases hr : st.mem.users tg with _ | r
  · simp [memory_get, hr] at hrow
  · simp only [memory_get, hr, Option.map_some'] at hrow
    have hcomp := Option.some.inj hrow
    have hmem : (memory_upsert st.mem tg ⟨none, none, none, some (pyStrip text)⟩).users tg =
        some (applyArgs r ⟨none, none, none, some (pyStrip text)⟩) :=
      memory_upsert_users_existing st.mem tg _ r hr
    simp only [on_edit_phone_upsert, upsert_user, hmode, true_or, if_pos, get_user,
      memory_get, hmem, Option.map_some', applyArgs, Option.or]
    simp only [Prod.mk.injEq] at hcomp
    obtain ⟨e1, e2, e3, e4, e5, _⟩ := hcomp
    simp [e1, e2, e3, e4, e5]

/-- Witness for C7 (amended) on the concrete stored profile. -/
theorem C7_edit_phone_updates_only_phone_witness :
    (get_user ⟨true, true⟩ true none
        (on_edit_phone_upsert ⟨true, true⟩ true profileStore 5 " 99") 5).1 =
      some (1, 5, some "en", some "Ann", some "Lee", some (pyStrip " 99")) :=
  C7_edit_phone_updates_only_phone ⟨true, true⟩ true true none profileStore 5 " 99"
    1 5 (some "en") (some "Ann") (some "Lee") (some "+1") rfl rfl

/-! ## Distance formatter (claim C5)

`_fmt_distance_km` (src/bot/handlers.py lines 67-72).  Python floats are
modelled by exact rationals; `int()` truncates toward zero and `round()`
rounds half to even. -/

/-- Python `int()` on a number: truncation toward zero. -/
def pyTrunc (q : ℚ) : ℤ :=
  Int.tdiv q.num q.den

/-- Python `round()` on a number: round half to even. -/
def pyRound (q : ℚ) : ℤ :=
  if q - ⌊q⌋ < 1 / 2 then ⌊q⌋
  else if 1 / 2 < q - ⌊q⌋ then ⌊q⌋ + 1
  else if ⌊q⌋ % 2 = 0 then ⌊q⌋ else ⌊q⌋ + 1

/-- Python `f"\x7bd:.1f\x7d"` on a nonnegative number: the value rounded
to one decimal digit (half to even), rendered with exactly one digit
after the point. -/
def fmtOneDec (q : ℚ) : String :=
  let n := pyRound (q * 10)
  toString (n / 10) ++ "." ++ toString (n % 10)

/-- Embedding of `_fmt_distance_km` (src/bot/handlers.py lines 67-72). -/
def fmt_distance_km (dkm : ℚ) : String :=
  if dkm < 1 then toString (pyTrunc (dkm * 1000)) ++ " m"
  else if dkm < 10 then fmtOneDec dkm ++ " km"
  else toString (pyRound dkm) ++ " km"

theorem pyTrunc_eq_floor (q : ℚ) (h : 0 ≤ q) : pyTrunc q = ⌊q⌋ := by
  unfold pyTrunc
  rw [Rat.floor_def]
  exact Int.tdiv_eq_ediv (Rat.num_nonneg.2 h) (Int.ofNat_nonneg q.den)

theorem pyRound_near (q : ℚ) : |(pyRound q : ℚ) - q| ≤ 1 / 2 := by
  unfold pyRound
  have hlo := Int.floor_le q
  have hhi := Int.lt_floor_add_one q
  split
  · rw [abs_le]
    constructor <;> linarith
  · split
    · rw [abs_le]
      push_cast
      constructor <;> linarith
    · split
      · rw [abs_le]
        constructor <;> linarith
      · rw [abs_le]
        push_cast
        constructor <;> linarith

theorem pyRound_eq_lo (q : ℚ) (n : ℤ) (h1 : (n : ℚ) ≤ q) (h2 : q - n < 1 / 2) :
    pyRound q = n := by
  have hf : ⌊q⌋ = n := Int.floor_eq_iff.2 ⟨h1, by linarith⟩
  unfold pyRound
  rw [hf, if_pos (by linarith)]

theorem pyRound_eq_hi (q : ℚ) (n : ℤ) (h1 : 1 / 2 < q - n) (h2 : q < (n : ℚ) + 1) :
    pyRound q = n + 1 := by
  have hf : ⌊q⌋ = n := Int.floor_eq_iff.2 ⟨by linarith, by linarith⟩
  unfold pyRound
  rw [hf, if_neg (by linarith), if_pos (by linarith)]

theorem fmt_distance_lt_one (d : ℚ) (h0 : 0 ≤ d) (h1 : d < 1) :
    fmt_distance_km d = toString ⌊d * 1000⌋ ++ " m" := by
  rw [fmt_distance_km, if_pos h1, pyTrunc_eq_floor _ (by positivity)]

theorem fmt_distance_mid (d : ℚ) (h1 : 1 ≤ d) (h10 : d < 10) :
    fmt_distance_km d =
      toString (pyRound (d * 10) / 10) ++ "." ++ toString (pyRound (d * 10) % 10)
        ++ " km" := by
  rw [fmt_distance_km, if_neg (not_lt.2 h1), if_pos h10]
  rfl

theorem fmt_distance_hi (d : ℚ) (h10 : 10 ≤ d) :
    fmt_distance_km d = toString (pyRound d) ++ " km" := by
  rw [fmt_distance_km, if_neg (by linarith), if_neg (not_lt.2 h10)]

/-- C5: for every non-negative distance `d` in kilometres,
`_fmt_distance_km` returns the truncated metre value with `" m"` when
`d < 1`; the value rendered with exactly one decimal digit (within half
a tenth of `d`) with `" km"` when `1 ≤ d < 10`; the value rounded to a
nearest integer (within half of `d`) with `" km"` when `d ≥ 10`; and in
particular `0.5 ↦ "500 m"`, `2.345 ↦ "2.3 km"`, `15.6 ↦ "16 km"`,
`0.999 ↦ "999 m"`, `1.0 ↦ "1.0 km"`. -/
theorem C5_fmt_distance_km_spec :
    (∀ d : ℚ, 0 ≤ d → d < 1 → fmt_distance_km d = toString ⌊d * 1000⌋ ++ " m")
    ∧ (∀ d : ℚ, 1 ≤ d → d < 10 →
        fmt_distance_km d =
          toString (pyRound (d * 10) / 10) ++ "." ++ toString (pyRound (d * 10) % 10) ++ " km"
        ∧ |(pyRound (d * 10) : ℚ) / 10 - d| ≤ 1 / 20)
    ∧ (∀ d : ℚ, 10 ≤ d →
        fmt_distance_km d = toString (pyRound d) ++ " km" ∧ |(pyRound d : ℚ) - d| ≤ 1 / 2)
    ∧ fmt_distance_km (1 / 2) = "500 m"
    ∧ fmt_distance_km (469 / 200) = "2.3 km"
    ∧ fmt_distance_km (78 / 5) = "16 km"
    ∧ fmt_distance_km (999 / 1000) = "999 m"
    ∧ fmt_distance_km 1 = "1.0 km" := by
  refine ⟨?_, ?_, ?_, ?_, ?_, ?_, ?_, ?_⟩
  · exact fun d h0 h1 => fmt_distance_lt_one d h0 h1
  · intro d h1 h10
    refine ⟨fmt_distance_mid d h1 h10, ?_⟩
    have h := pyRound_near (d * 10)
    have habs : |(pyRound (d * 10) : ℚ) / 10 - d| = |(pyRound (d * 10) : ℚ) - d * 10| / 10 := by
      rw [show (pyRound (d * 10) : ℚ) / 10 - d = ((pyRound (d * 10) : ℚ) - d * 10) / 10 by ring,
        abs_div]
      norm_num
    rw [habs]
    linarith
  · exact fun d h10 => ⟨fmt_distance_hi d h10, pyRound_near d⟩
  · rw [fmt_distance_lt_one (1 / 2) (by norm_num) (by norm_num),
      show ⌊(1 / 2 : ℚ) * 1000⌋ = 500 from by norm_num]
    rfl
  · rw [fmt_distance_mid (469 / 200) (by norm_num) (by norm_num),
      show pyRound ((469 : ℚ) / 200 * 10) = 23 from
        pyRound_eq_lo _ 23 (by norm_num) (by norm_num)]
    rfl
  · rw [fmt_distance_hi (78 / 5) (by norm_num),
      show pyRound ((78 : ℚ) / 5) = 15 + 1 from pyRound_eq_hi _ 15 (by norm_num) (by norm_num)]
    rfl
  · rw [fmt_distance_lt_one (999 / 1000) (by norm_num) (by norm_num),
      show ⌊(999 / 1000 : ℚ) * 1000⌋ = 999 from by norm_num]
    rfl
  · rw [fmt_distance_mid 1 (by norm_num) (by norm_num),
      show pyRound ((1 : ℚ) * 10) = 10 from pyRound_eq_lo _ 10 (by norm_num) (by norm_num)]
    rfl

/-- Witness for C5 instantiating the `d < 1` branch at `d = 1/2`. -/
theorem C5_fmt_distance_km_spec_witness :
    fmt_distance_km (1 / 2) = toString ⌊(1 / 2 : ℚ) * 1000⌋ ++ " m" :=
  C5_fmt_distance_km_spec.1 (1 / 2) (by norm_num) (by norm_num)

/-! ## Opening-hours line (claim C8)

`_today_hours_line` (src/bot/handlers.py lines 75-88) and the
combination with the open-now flag in `on_choose_category`
(lines 272-279).  The current UTC weekday index
(`datetime.utcnow().weekday()`) is a parameter `idx`. -/

def WANTED_NAMES : List String :=
  ["Monday", "Tuesday", "Wednesday", "Thursday", "Friday", "Saturday", "Sunday"]

/-- Rest of the character list after the first `':'`, when present
(`line.split(":", 1)` yields two parts exactly when a colon occurs). -/
def splitColonRest : List Char → Option (List Char)
  | [] => none
  | c :: cs => if c = ':' then some cs else splitColonRest cs

/-- `parts = line.split(":", 1); parts[1].strip() if len(parts) == 2 else line`. -/
def afterColon (line : String) : String :=
  match splitColonRest line.toList with
  | some rest => pyStrip (String.mk rest)
  | none => line

/-- Whether the character list `s` starts with the pattern `pat`. -/
def listStartsWith : List Char → List Char → Bool
  | _, [] => true
  | [], _ :: _ => false
  | c :: cs, d :: ds => c = d && listStartsWith cs ds

/-- Python `s.startswith(pat)`. -/
def strStartsWith (s pat : String) : Bool :=
  listStartsWith s.toList pat.toList

/-- `line.startswith(name + ":") or line.startswith(name + " :")`. -/
def matchesDay (name : String) (line : String) : Bool :=
  strStartsWith line (name ++ ":") || strStartsWith line (name ++ " :")

/-- Embedding of `_today_hours_line` (src/bot/handlers.py lines 75-88):
the first line matching the weekday name at `idx` is selected and its
part after the colon returned (stripped); with no match, or with `idx`
outside `0..6`, the first descriptor line is returned; an empty
descriptor list yields `None`. -/
def today_hours_line (idx : Nat) (wd : List String) : Option String :=
  match wd with
  | [] => none
  | w0 :: _ =>
    if idx ≤ 6 then
      match wd.find? (fun line => matchesDay (WANTED_NAMES.getD idx "") line) with
      | some line => some (afterColon line)
      | none => some w0
    else some w0

/-- Open-now indicator string of `on_choose_category`. -/
def openIndicator (b : Bool) : String :=
  if b then "🟢 Open now" else "🔴 Closed now"

/-- Python truthiness of an optional string (`None` and `""` are falsy). -/
def truthyStr : Option String → Option String
  | some s => if s = "" then none else some s
  | none => none

/-- Combination of the open-now flag and the today line into the card's
hours line (src/bot/handlers.py lines 272-279). -/
def hours_line (openNow : Option Bool) (todayLine : Option String) : Option String :=
  match openNow, truthyStr todayLine with
  | some b, some t => some (openIndicator b ++ " • " ++ t)
  | some b, none => some (openIndicator b)
  | none, some t => some t
  | none, none => none

/-- C8: the opening-hours line selects the descriptor line whose weekday
name matches the current UTC weekday index; if no line matches, it falls
back to the first available descriptor line; the result is combined with
an open-now/closed-now indicator when the open-now flag is present; and
when neither descriptor lines nor the open-now flag are available, the
hours line is omitted entirely. -/
theorem C8_hours_line_selection :
    (∀ idx : Nat, today_hours_line idx [] = none
      ∧ hours_line none (today_hours_line idx []) = none)
    ∧ (∀ (idx : Nat) (w0 : String) (rest : List String) (line : String), idx ≤ 6 →
        (w0 :: rest).find? (fun l => matchesDay (WANTED_NAMES.getD idx "") l) = some line →
        today_hours_line idx (w0 :: rest) = some (afterColon line))
    ∧ (∀ (idx : Nat) (w0 : String) (rest : List String), idx ≤ 6 →
        (∀ l ∈ w0 :: rest, matchesDay (WANTED_NAMES.getD idx "") l = false) →
        today_hours_line idx (w0 :: rest) = some w0)
    ∧ (∀ (b : Bool) (t : String), t ≠ "" →
        hours_line (some b) (some t) = some (openIndicator b ++ " • " ++ t))
    ∧ (∀ b : Bool, hours_line (some b) none = some (openIndicator b))
    ∧ (∀ t : String, t ≠ "" → hours_line none (some t) = some t)
    ∧ hours_line none none = none := by
  refine ⟨?_, ?_, ?_, ?_, ?_, ?_, rfl⟩
  · intro idx
    exact ⟨rfl, rfl⟩
  · intro idx w0 rest line hidx hfind
    simp only [today_hours_line, if_pos hidx, hfind]
  · intro idx w0 rest hidx hnone
    have : (w0 :: rest).find? (fun l => matchesDay (WANTED_NAMES.getD idx "") l) = none := by
      rw [List.find?_eq_none]
      intro x hx
      simp only [Bool.not_eq_true]
      exact hnone x hx
    simp only [today_hours_line, if_pos hidx, this]
  · intro b t ht
    simp [hours_line, truthyStr, ht]
  · intro b
    rfl
  · intro t ht
    simp [hours_line, truthyStr, ht]

/-- Witness for C8: a Tuesday line is selected on weekday index 1, the
suffix after the colon stripped. -/
theorem C8_hours_line_selection_witness :
    today_hours_line 1 ["Monday: 9-5", "Tuesday: 10-6"] = some (afterColon "Tuesday: 10-6") :=
  C8_hours_line_selection.2.1 1 "Monday: 9-5" ["Tuesday: 10-6"] "Tuesday: 10-6"
    (by decide) (by decide)

/-! ## Reverse geocoding result selection (claim C9)

`reverse_geocode` (src/services/google_places.py lines 107-152): the
selection applied to a successfully parsed geocoding response body. -/

/-- One entry of the geocoding response's `results` list. -/
structure GeoResult where
  types : List String
  formatted_address : Option String
  deriving DecidableEq, Repr

/-- The response's optional `plus_code` object. -/
structure PlusCode where
  global_code : Option String
  compound_code : Option String
  deriving DecidableEq, Repr

/-- Parsed geocoding response body. -/
structure GeoData where
  results : List GeoResult
  plus_code : PlusCode
  deriving DecidableEq, Repr

/-- `_has_type(r, types)`: `any(t in ts for t in types)`. -/
def has_type (r : GeoResult) (wanted : List String) : Bool :=
  wanted.any (fun t => r.types.contains t)

def SUBLOCALITY_TYPES : List String := ["sublocality", "sublocality_level_1", "neighborhood"]

def ROUTE_TYPES : List String := ["route"]

def LOCALITY_TYPES : List String := ["locality", "administrative_area_level_2"]

/-- Embedding of the selection logic of `reverse_geocode`
(src/services/google_places.py lines 122-152): preferred orders scanned
in sequence, then the truthy compound plus-code, then the truthy global
plus-code, then the first result's formatted address; an empty result
list yields nothing. -/
def reverse_geocode_pick (d : GeoData) : Option String :=
  match d.results with
  | [] => none
  | r0 :: _ =>
    match d.results.find? (fun r => has_type r SUBLOCALITY_TYPES) with
    | some r => r.formatted_address
    | none =>
      match d.results.find? (fun r => has_type r ROUTE_TYPES) with
      | some r => r.formatted_address
      | none =>
        match d.results.find? (fun r => has_type r LOCALITY_TYPES) with
        | some r => r.formatted_address
        | none =>
          match truthyStr d.plus_code.compound_code with
          | some c => some c
          | none =>
            match truthyStr d.plus_code.global_code with
            | some g => some g
            | none => r0.formatted_address

/-- C9: for every geocoding response, the display string is chosen by
the strict preference order: the formatted address of the first result
tagged sublocality/neighborhood; otherwise of the first result tagged as
a route; otherwise of the first result tagged locality/administrative
area; otherwise the compound plus-code, then the global plus-code;
otherwise the first raw result's formatted address; and nothing when the
result list is empty. -/
theorem C9_reverse_geocode_preference :
    (∀ pc : PlusCode, reverse_geocode_pick ⟨[], pc⟩ = none)
    ∧ (∀ (r0 : GeoResult) (rs : List GeoResult) (pc : PlusCode) (r : GeoResult),
        (r0 :: rs).find? (fun x => has_type x SUBLOCALITY_TYPES) = some r →
        reverse_geocode_pick ⟨r0 :: rs, pc⟩ = r.formatted_address)
    ∧ (∀ (r0 : GeoResult) (rs : List GeoResult) (pc : PlusCode) (r : GeoResult),
        (r0 :: rs).find? (fun x => has_type x SUBLOCALITY_TYPES) = none →
        (r0 :: rs).find? (fun x => has_type x ROUTE_TYPES) = some r →
        reverse_geocode_pick ⟨r0 :: rs, pc⟩ = r.formatted_address)
    ∧ (∀ (r0 : GeoResult) (rs : List GeoResult) (pc : PlusCode) (r : GeoResult),
        (r0 :: rs).find? (fun x => has_type x SUBLOCALITY_TYPES) = none →
        (r0 :: rs).find? (fun x => has_type x ROUTE_TYPES) = none →
        (r0 :: rs).find? (fun x => has_type x LOCALITY_TYPES) = some r →
        reverse_geocode_pick ⟨r0 :: rs, pc⟩ = r.formatted_address)
    ∧ (∀ (r0 : GeoResult) (rs : List GeoResult) (pc : PlusCode) (c : String),
        (r0 :: rs).find? (fun x => has_type x SUBLOCALITY_TYPES) = none →
        (r0 :: rs).find? (fun x => has_type x ROUTE_TYPES) = none →
        (r0 :: rs).find? (fun x => has_type x LOCALITY_TYPES) = none →
        truthyStr pc.compound_code = some c →
        reverse_geocode_pick ⟨r0 :: rs, pc⟩ = some c)
    ∧ (∀ (r0 : GeoResult) (rs : List GeoResult) (pc : PlusCode) (g : String),
        (r0 :: rs).find? (fun x => has_type x SUBLOCALITY_TYPES) = none →
        (r0 :: rs).find? (fun x => has_type x ROUTE_TYPES) = none →
        (r0 :: rs).find? (fun x => has_type x LOCALITY_TYPES) = none →
        truthyStr pc.compound_code = none →
        truthyStr pc.global_code = some g →
        reverse_geocode_pick ⟨r0 :: rs, pc⟩ = some g)
    ∧ (∀ (r0 : GeoResult) (rs : List GeoResult) (pc : PlusCode),
        (r0 :: rs).find? (fun x => has_type x SUBLOCALITY_TYPES) = none →
        (r0 :: rs).find? (fun x => has_type x ROUTE_TYPES) = none →
        (r0 :: rs).find? (fun x => has_type x LOCALITY_TYPES) = none →
        truthyStr pc.compound_code = none →
        truthyStr pc.global_code = none →
        reverse_geocode_pick ⟨r0 :: rs, pc⟩ = r0.formatted_address) := by
  refine ⟨fun pc => rfl, ?_, ?_, ?_, ?_, ?_, ?_⟩
  · intro r0 rs pc r h1
    unfold reverse_geocode_pick
    rw [h1]
  · intro r0 rs pc r h1 h2
    unfold reverse_geocode_pick
    rw [h1, h2]
  · intro r0 rs pc r h1 h2 h3
    unfold reverse_geocode_pick
    rw [h1, h2, h3]
  · intro r0 rs pc c h1 h2 h3 h4
    unfold reverse_geocode_pick
    rw [h1, h2, h3, h4]
  · intro r0 rs pc g h1 h2 h3 h4 h5
    unfold reverse_geocode_pick
    rw [h1, h2, h3, h4, h5]
  · intro r0 rs pc h1 h2 h3 h4 h5
    unfold reverse_geocode_pick
    rw [h1, h2, h3, h4, h5]

/-- Witness for C9: a single route-tagged result is selected by the
second preference tier. -/
theorem C9_reverse_geocode_preference_witness :
    reverse_geocode_pick ⟨[⟨["route"], some "R street"⟩], ⟨none, none⟩⟩ = some "R street" :=
  C9_reverse_geocode_preference.2.2.1 ⟨["route"], some "R street"⟩ [] ⟨none, none⟩
    ⟨["route"], some "R street"⟩ (by decide) (by decide)

/-! ## Settings keyboard arity (claim C10)

`settings_keyboard` (src/bot/keyboards.py lines 76-83) declares four
parameters (`edit_language_label`, `edit_name_label`, `edit_phone_label`,
`back_text`), none with a default.  Every rendering call site in
src/bot/handlers.py (`settings_entry` message and callback branches at
lines 336-340 and 345-349, the unknown-choice branch of
`on_settings_choice` at lines 377-378, and the save confirmations of
`on_edit_name` at line 393 and `on_edit_phone` at line 403) passes three
positional arguments.  A Python call succeeds only when the supplied
positional arguments cover all parameters without defaults and do not
exceed the parameter count; otherwise it raises `TypeError`. -/

/-- Number of parameters of `settings_keyboard` without defaults. -/
def settings_keyboard_required : Nat := 4

/-- Total number of parameters of `settings_keyboard`. -/
def settings_keyboard_total : Nat := 4

/-- Python positional-call arity check. -/
def pythonCallOk (required total supplied : Nat) : Bool :=
  decide (required ≤ supplied) && decide (supplied ≤ total)

/-- Outcome of calling `settings_keyboard` with `supplied` positional
arguments: the rendered keyboard, or a raised `TypeError`. -/
def settings_keyboard_call (supplied : Nat) : Except Unit Unit :=
  if pythonCallOk settings_keyboard_required settings_keyboard_total supplied
  then Except.ok () else Except.error ()

/-- Positional arguments passed by `settings_entry`'s message branch. -/
def settings_entry_args : Nat := 3

/-- Positional arguments passed by `settings_entry`'s callback branch. -/
def settings_entry_callback_args : Nat := 3

/-- Positional arguments passed by the unknown-choice branch of
`on_settings_choice`. -/
def on_settings_choice_unknown_args : Nat := 3

/-- Positional arguments passed by the save confirmation of
`on_edit_name`. -/
def on_edit_name_saved_args : Nat := 3

/-- Positional arguments passed by the save confirmation of
`on_edit_phone`. -/
def on_edit_phone_saved_args : Nat := 3

/-- C10: every code path that renders the settings menu calls
`settings_keyboard` with three arguments while it requires four
parameters with no defaults, so every such call raises `TypeError` and
no settings menu is ever rendered (no call site yields a keyboard). -/
theorem C10_settings_keyboard_arity_mismatch :
    settings_keyboard_call settings_entry_args = Except.error ()
    ∧ settings_keyboard_call settings_entry_callback_args = Except.error ()
    ∧ settings_keyboard_call on_settings_choice_unknown_args = Except.error ()
    ∧ settings_keyboard_call on_edit_name_saved_args = Except.error ()
    ∧ settings_keyboard_call on_edit_phone_saved_args = Except.error () :=
  ⟨rfl, rfl, rfl, rfl, rfl⟩

/-! ## Geo/Search client retry policy (claim C4)

Each operation in `src/services/google_places.py` is decorated with
`backoff.on_exception(backoff.expo, (requests.exceptions.RequestException,), max_tries=3)`.
A call is modelled as a function of the list of attempt outcomes the
network would deliver; each attempt is either a raised
`RequestException` or an HTTP response.  `requests`' `resp.ok` is
`status < 400`.  `_raise_with_details` logs the body and calls
`resp.raise_for_status()`, whose `HTTPError` is a `RequestException`
subclass — so `backoff` retries it and re-raises after the third try. -/

/-- Outcome of one HTTP attempt: a raised `RequestException`, or a
response with a status code and a parsed payload. -/
inductive NetAttempt (α : Type) where
  | netfail : NetAttempt α
  | resp (status : Nat) (payload : α) : NetAttempt α
  deriving DecidableEq, Repr

/-- `requests.Response.ok`. -/
def respOk (status : Nat) : Bool :=
  status < 400

/-- `backoff.on_exception(..., max_tries=n)` around a call body `f`:
each try consumes the next attempt outcome; an exception from `f` is
retried until the tries are exhausted, then re-raised to the caller. -/
def retryCall {α β : Type} (f : α → Except Unit β) : Nat → List α → Except Unit β
  | 0, _ => Except.error ()
  | _ + 1, [] => Except.error ()
  | t + 1, a :: rest =>
    match f a with
    | Except.ok b => Except.ok b
    | Except.error e => if t = 0 then Except.error e else retryCall f t rest

/-- Place object of a nearby-search response; only the fields the
verified claims inspect are carried. -/
structure Place where
  openNow : Option Bool
  weekdayDescriptions : List String
  deriving DecidableEq, Repr

/-- Body of one `search_nearby` try (src/services/google_places.py
lines 59-79): a non-ok response raises via `_raise_with_details`, an ok
response yields `data.get("places", [])`. -/
def search_nearby_attempt (a : NetAttempt (List Place)) : Except Unit (List Place) :=
  match a with
  | NetAttempt.netfail => Except.error ()
  | NetAttempt.resp status places =>
      if respOk status then Except.ok places else Except.error ()

/-- Embedding of `search_nearby`: body under 3-try backoff. -/
def search_nearby (attempts : List (NetAttempt (List Place))) : Except Unit (List Place) :=
  retryCall search_nearby_attempt 3 attempts

/-- Locations of the places of a text-search response. -/
abbrev TextPlaces := List (Option ℚ × Option ℚ)

/-- Body of one `search_text` try (lines 82-94): non-ok raises; ok with
no places yields `None`, else the first place's location pair. -/
def search_text_attempt (a : NetAttempt TextPlaces) :
    Except Unit (Option (Option ℚ × Option ℚ)) :=
  match a with
  | NetAttempt.netfail => Except.error ()
  | NetAttempt.resp status places =>
      if respOk status then
        match places with
        | [] => Except.ok none
        | p :: _ => Except.ok (some p)
      else Except.error ()

/-- Embedding of `search_text`: body under 3-try backoff. -/
def search_text (attempts : List (NetAttempt TextPlaces)) :
    Except Unit (Option (Option ℚ × Option ℚ)) :=
  retryCall search_text_attempt 3 attempts

/-- Body of one `reverse_geocode` try (lines 108-152): a non-ok response
is logged and returns `None` (no exception); an ok response is parsed
and the selection of `reverse_geocode_pick` applied. -/
def reverse_geocode_attempt (a : NetAttempt GeoData) : Except Unit (Option String) :=
  match a with
  | NetAttempt.netfail => Except.error ()
  | NetAttempt.resp status d =>
      if respOk status then Except.ok (reverse_geocode_pick d) else Except.ok none

/-- Embedding of `reverse_geocode`: body under 3-try backoff. -/
def reverse_geocode (attempts : List (NetAttempt GeoData)) : Except Unit (Option String) :=
  retryCall reverse_geocode_attempt 3 attempts

/-- URL built by `get_photo_url` (line 98). -/
def photo_request_url (photo_name : String) (max_height : Nat) (key : String) : String :=
  "https://places.googleapis.com/v1/" ++ photo_name ++ "/media?maxHeightPx="
    ++ toString max_height ++ "&key=" ++ key

/-- Body of one `get_photo_url` try (lines 97-105): a 302/303 response
with a `Location` header yields that header; otherwise an ok response
yields the request URL itself; otherwise the failure is logged and
`None` returned.  The payload is the optional `Location` header. -/
def get_photo_url_attempt (url : String) (a : NetAttempt (Option String)) :
    Except Unit (Option String) :=
  match a with
  | NetAttempt.netfail => Except.error ()
  | NetAttempt.resp status loc =>
      if (status = 302 ∨ status = 303) ∧ loc.isSome then Except.ok loc
      else if respOk status then Except.ok (some url)
      else Except.ok none

/-- Embedding of `get_photo_url`: body under 3-try backoff. -/
def get_photo_url (photo_name key : String) (attempts : List (NetAttempt (Option String))) :
    Except Unit (Option String) :=
  retryCall (get_photo_url_attempt (photo_request_url photo_name 800 key)) 3 attempts

theorem retryCall_take {α β : Type} (f : α → Except Unit β) :
    ∀ (n : Nat) (l : List α), retryCall f n l = retryCall f n (l.take n) := by
  intro n
  induction n with
  | zero => intro l; rfl
  | succ t ih =>
      intro l
      cases l with
      | nil => rfl
      | cons a rest =>
          simp only [retryCall, List.take_succ_cons]
          cases f a with
          | ok b => rfl
          | error e =>
              by_cases ht : t = 0
              · subst ht; rfl
              · simp only [if_neg ht]
                exact ih rest

/-- C4 counterexample: three non-success (403) responses in a row make
`search_nearby` re-raise the `HTTPError` from `resp.raise_for_status()`
to the caller — the call's outcome is a raised exception, not a
no-result value, refuting "never as a raised exception reaching the
caller". -/
theorem C4_nearby_non_success_raises :
    search_nearby
        [NetAttempt.resp 403 [], NetAttempt.resp 403 [], NetAttempt.resp 403 []] =
      Except.error ()
    ∧ respOk 403 = false :=
  ⟨rfl, rfl⟩

/-- C4 (amended): for each of the four operations, transient failures
are retried with at most 3 attempts total (the outcome depends only on
the first three attempt outcomes).  A non-success response status is
surfaced as a no-result value for `reverse_geocode` and
`get_photo_url`; for `search_nearby` and `search_text` it raises an
`HTTPError` which, being a `RequestException`, is retried like a
transient failure and reaches the caller as an exception once the three
attempts are exhausted. -/
theorem C4_retry_policy :
    (∀ attempts, search_nearby attempts = search_nearby (attempts.take 3))
    ∧ (∀ attempts, search_text attempts = search_text (attempts.take 3))
    ∧ (∀ attempts, reverse_geocode attempts = reverse_geocode (attempts.take 3))
    ∧ (∀ (ph key : String) attempts,
        get_photo_url ph key attempts = get_photo_url ph key (attempts.take 3))
    ∧ (∀ (st : Nat) (d : GeoData) (rest : List (NetAttempt GeoData)), ¬st < 400 →
        reverse_geocode (NetAttempt.resp st d :: rest) = Except.ok none)
    ∧ (∀ (ph key : String) (st : Nat) (loc : Option String)
        (rest : List (NetAttempt (Option String))), ¬st < 400 →
        get_photo_url ph key (NetAttempt.resp st loc :: rest) = Except.ok none)
    ∧ (∀ (st₁ st₂ st₃ : Nat) (p₁ p₂ p₃ : List Place),
        ¬st₁ < 400 → ¬st₂ < 400 → ¬st₃ < 400 →
        search_nearby [NetAttempt.resp st₁ p₁, NetAttempt.resp st₂ p₂, NetAttempt.resp st₃ p₃] =
          Except.error ())
    ∧ (∀ (st₁ st₂ st₃ : Nat) (p₁ p₂ p₃ : TextPlaces),
        ¬st₁ < 400 → ¬st₂ < 400 → ¬st₃ < 400 →
        search_text [NetAttempt.resp st₁ p₁, NetAttempt.resp st₂ p₂, NetAttempt.resp st₃ p₃] =
          Except.error ()) := by
  refine ⟨fun attempts => retryCall_take _ 3 attempts,
    fun attempts => retryCall_take _ 3 attempts,
    fun attempts => retryCall_take _ 3 attempts,
    fun ph key attempts => retryCall_take _ 3 attempts, ?_, ?_, ?_, ?_⟩
  · intro st d rest h
    have hok : respOk st = false := by
      simp [respOk, h]
    simp [reverse_geocode, retryCall, reverse_geocode_attempt, hok]
  · intro ph key st loc rest h
    have hok : respOk st = false := by
      simp [respOk, h]
    have h302 : ¬((st = 302 ∨ st = 303) ∧ loc.isSome) := by
      rintro ⟨h1 | h1, _⟩ <;> omega
    simp [get_photo_url, retryCall, get_photo_url_attempt, hok, h302]
  · intro st₁ st₂ st₃ p₁ p₂ p₃ h₁ h₂ h₃
    have e₁ : respOk st₁ = false := by simp [respOk, h₁]
    have e₂ : respOk st₂ = false := by simp [respOk, h₂]
    have e₃ : respOk st₃ = false := by simp [respOk, h₃]
    simp [search_nearby, retryCall, search_nearby_attempt, e₁, e₂, e₃]
  · intro st₁ st₂ st₃ p₁ p₂ p₃ h₁ h₂ h₃
    have e₁ : respOk st₁ = false := by simp [respOk, h₁]
    have e₂ : respOk st₂ = false := by simp [respOk, h₂]
    have e₃ : respOk st₃ = false := by simp [respOk, h₃]
    simp [search_text, retryCall, search_text_attempt, e₁, e₂, e₃]

/-- Witness for C4 (amended): a 500 response makes `reverse_geocode`
return no result without raising. -/
theorem C4_retry_policy_witness :
    reverse_geocode [NetAttempt.resp 500 ⟨[], ⟨none, none⟩⟩] = Except.ok none :=
  C4_retry_policy.2.2.2.2.1 500 ⟨[], ⟨none, none⟩⟩ [] (by decide)

/-! ## Category selection (claim C6)

`on_choose_category` (src/bot/handlers.py lines 197-246) as a transition
function of the conversation: the incoming text (or callback data), the
conversation's query point, and the nearby-search result are its inputs;
the returned conversation state and the emitted effect are its outputs. -/

/-- Conversation states of the `ConversationHandler`
(src/bot/handlers.py lines 40-42). -/
inductive ConvState where
  | LANG
  | FIRST_NAME
  | LAST_NAME
  | CONTACT
  | WAIT_LOCATION_OR_TEXT
  | CHOOSE_CATEGORY
  | SETTINGS
  | EDIT_NAME
  | EDIT_PHONE
  deriving DecidableEq, Repr

/-- Languages reachable through `on_language` / `get_lang`. -/
inductive Lang where
  | uz
  | ru
  | en
  deriving DecidableEq, Repr

/-- Canonical category keys (src/bot/handlers.py lines 45-50). -/
def ENG_CATEGORIES : List String :=
  ["Restaurant", "Hotel", "Park", "Historic Places"]

/-- Localized category labels (src/bot/locale.py, key `categories`). -/
def L_categories : Lang → List String
  | Lang.uz => ["🍽️ Restoran", "🏨 Mehmonxona", "🌳 Park", "🏛️ Tarixiy joylar"]
  | Lang.ru => ["🍽️ Рестораны", "🏨 Отели", "🌳 Парки", "🏛️ Исторические места"]
  | Lang.en => ["🍽️ Restaurants", "🏨 Hotels", "🌳 Parks", "🏛️ Historical places"]

/-- Localized back-button label (src/bot/locale.py, key `back`). -/
def L_back : Lang → String
  | Lang.uz => "⬅️ Orqaga"
  | Lang.ru => "⬅️ Назад"
  | Lang.en => "⬅️ Back"

/-- Embedding of `_category_items_for_lang` (src/bot/handlers.py
lines 58-64): localized labels paired positionally with canonical
keys. -/
def category_items_for_lang (lang : Lang) : List (String × String) :=
  (L_categories lang).enum.map fun p =>
    (p.2, if p.1 < ENG_CATEGORIES.length then ENG_CATEGORIES.getD p.1 "" else p.2)

/-- The `label_to_key` dictionary lookup of `on_choose_category`. -/
def label_to_key (lang : Lang) (label : String) : Option String :=
  ((category_items_for_lang lang).find? (fun p => p.1 = label)).map Prod.snd

/-- Inputs of one `on_choose_category` step: whether the event is an
inline callback, its raw text (callback data or message text), the
conversation's stored query point, and the oracle result of the nearby
search. -/
structure CatInput where
  isCallback : Bool
  raw : String
  queryPoint : Option (ℚ × ℚ)
  places : List Place

/-- Effect emitted by one `on_choose_category` step. -/
inductive CatEffect where
  | askLocation
  | ignored
  | searchedNoResults
  | searchedCards (n : Nat)
  deriving DecidableEq, Repr

/-- Embedding of `on_choose_category` (src/bot/handlers.py
lines 197-246): back taps re-prompt for a location and move to
`WAIT_LOCATION_OR_TEXT`; a `cat|`-token or a recognized localized label
selects a category (an unrecognized text returns `CHOOSE_CATEGORY` with
no effect); a missing query point re-prompts for a location; otherwise
the nearby search runs and zero results re-present the category menu
while N results render N cards, both staying in `CHOOSE_CATEGORY`. -/
def on_choose_category (lang : Lang) (inp : CatInput) : ConvState × CatEffect :=
  let text := pyStrip inp.raw
  if text = L_back lang ∨ (inp.isCallback ∧ text = "back_root") then
    (ConvState.WAIT_LOCATION_OR_TEXT, CatEffect.askLocation)
  else
    let keyOpt : Option String :=
      if inp.isCallback ∧ strStartsWith text "cat|" then some (String.mk (text.toList.drop 4))
      else label_to_key lang text
    match keyOpt with
    | none => (ConvState.CHOOSE_CATEGORY, CatEffect.ignored)
    | some _ =>
      match inp.queryPoint with
      | none => (ConvState.WAIT_LOCATION_OR_TEXT, CatEffect.askLocation)
      | some _ =>
        if inp.places.isEmpty then (ConvState.CHOOSE_CATEGORY, CatEffect.searchedNoResults)
        else (ConvState.CHOOSE_CATEGORY, CatEffect.searchedCards inp.places.length)

/-- C6: in state `CategorySelection`, a recognized category selection
with a query point set whose nearby search returns zero places
re-presents the category menu and stays in `CHOOSE_CATEGORY`;
unrecognized text causes no transition; a recognized category selection
with no query point set re-prompts for location and transitions to
`WAIT_LOCATION_OR_TEXT`; a `cat|` callback token behaves like a
recognized selection. -/
theorem C6_category_selection_transitions :
    (∀ (lang : Lang) (inp : CatInput) (k : String),
        inp.isCallback = false →
        pyStrip inp.raw ≠ L_back lang →
        label_to_key lang (pyStrip inp.raw) = some k →
        inp.queryPoint.isSome →
        inp.places = [] →
        on_choose_category lang inp = (ConvState.CHOOSE_CATEGORY, CatEffect.searchedNoResults))
    ∧ (∀ (lang : Lang) (inp : CatInput),
        inp.isCallback = false →
        pyStrip inp.raw ≠ L_back lang →
        label_to_key lang (pyStrip inp.raw) = none →
        on_choose_category lang inp = (ConvState.CHOOSE_CATEGORY, CatEffect.ignored))
    ∧ (∀ (lang : Lang) (inp : CatInput) (k : String),
        inp.isCallback = false →
        pyStrip inp.raw ≠ L_back lang →
        label_to_key lang (pyStrip inp.raw) = some k →
        inp.queryPoint = none →
        on_choose_category lang inp = (ConvState.WAIT_LOCATION_OR_TEXT, CatEffect.askLocation))
    ∧ (∀ (lang : Lang) (inp : CatInput),
        inp.isCallback = true →
        pyStrip inp.raw ≠ L_back lang →
        pyStrip inp.raw ≠ "back_root" →
        strStartsWith (pyStrip inp.raw) "cat|" = true →
        inp.queryPoint.isSome →
        inp.places = [] →
        on_choose_category lang inp = (ConvState.CHOOSE_CATEGORY, CatEffect.searchedNoResults)) := by
  refine ⟨?_, ?_, ?_, ?_⟩
  · intro lang inp k hcb hback hkey hqp hpl
    obtain ⟨qp, hq⟩ := Option.isSome_iff_exists.1 hqp
    simp [on_choose_category, hcb, hback, hkey, hq, hpl]
  · intro lang inp hcb hback hkey
    simp [on_choose_category, hcb, hback, hkey]
  · intro lang inp k hcb hback hkey hq
    simp [on_choose_category, hcb, hback, hkey, hq]
  · intro lang inp hcb hback hroot hcat hqp hpl
    obtain ⟨qp, hq⟩ := Option.isSome_iff_exists.1 hqp
    simp [on_choose_category, hcb, hback, hroot, hcat, hq, hpl]

/-- Witness for C6: the English label for restaurants with a query point
set and an empty search result re-presents the menu in place. -/
theorem C6_category_selection_transitions_witness :
    on_choose_category Lang.en ⟨false, "🍽️ Restaurants", some (41, 69), []⟩ =
      (ConvState.CHOOSE_CATEGORY, CatEffect.searchedNoResults) :=
  C6_category_selection_transitions.1 Lang.en ⟨false, "🍽️ Restaurants", some (41, 69), []⟩
    "Restaurant" rfl (by decide) (by decide) rfl rfl
